import Mathlib

/- Verification of the ietf-at HTTP API handlers (at/api.py) against their specification.
The handlers in at/api.py are embedded shallowly as Lean functions over an explicit request
value, an immutable configuration, and an environment of oracles standing for the external
tools and the network. Every call to an external tool, every staging write and every fetch
is recorded in an explicit trace so that claims about which processes run before a response
can be settled. Utility functions of the repository that are not part of the sources here
(at/utils/file.py, at/utils/net.py and friends) are modelled from the specification and
marked as such in their doc comments. -/

set_option maxRecDepth 10000
set_option linter.unusedVariables false

deriving instance DecidableEq for Except

namespace AT

/- Basic data model -/

/-- Werkzeug FileStorage as seen by api.py: only the filename is inspected by the handlers;
the byte content is consumed by the external tool oracles. -/
structure FileUpload where
  filename : String
deriving DecidableEq

/-- Flask request surface used by api.py: request.values (the combined query string and form
values) and request.files (the multipart file parts). -/
structure Request where
  values : String → Option String
  files : String → Option FileUpload

/-- Flask app config fields read by api.py. -/
structure Config where
  uploadDir : String
  allowedDomains : List String
  dtLatestDraftUrl : String

/-- Errors raised by at/utils helpers and caught by individual except clauses in api.py:
TextProcessingError, DownloadError, InvalidURL and LatestDraftNotFound. -/
inductive UtilError
  | textProcessing (msg : String)
  | download (msg : String)
  | invalidURL (msg : String)
  | latestNotFound (msg : String)
deriving DecidableEq

/-- The message carried by a utility error, as produced by str on the Python exception. -/
def UtilError.message : UtilError → String
  | .textProcessing m => m
  | .download m => m
  | .invalidURL m => m
  | .latestNotFound m => m

/-- Errors raised by process_file and caught in the render and validate handlers. -/
inductive ProcError
  | kramdownErr (msg : String)
  | mmarkErr (msg : String)
  | textErr (msg : String)
deriving DecidableEq

/-- A fault that escapes the handler uncaught: either a read of a Python local variable that
was never assigned on the taken path, or an exception kind with no matching except clause. -/
inductive Fault
  | unboundLocal (name : String)
  | uncaught (e : UtilError)
deriving DecidableEq

/-- One observable side effect of a handler: an external tool invocation, a staging store
write, a registry lookup or a document fetch. -/
inductive Call
  | saveFile (filename : String)
  | saveText
  | kramdown (filename : String)
  | mmark (filename : String)
  | id2xml (filename : String)
  | xml2rfc (filename : String)
  | renderStep (mode filename : String)
  | validateCall (filename : String)
  | textFromFile (filename : String)
  | fetch (url : String)
  | latest (doc : String)
  | idnitsCall (filename verbose : String) (showText : Bool) (year : String) (submitCheck : Bool)
  | iddiffCall (oldDraft newDraft : String) (table wdiff : Bool)
  | svgcheckCall (filename : String)
  | abnfExtractCall (filename : String)
  | abnfParseCall (filename : String)
deriving DecidableEq

/-- The HTTP responses produced by the handlers of api.py. An errorJson response is
jsonify with an error field together with an explicit or defaulted status code; the other
constructors are the success payloads, all carrying HTTP 200. -/
inductive Response
  | errorJson (status : Nat) (msg : String)
  | fileAttachment (dirPath filename : String)
  | textBody (body : String)
  | htmlBody (body : String)
  | jsonValidation (log : String)
  | jsonAbnf (errors : List String) (abnf : String)
  | jsonSvg (result svg : String)
deriving DecidableEq

/-- HTTP status of a response: jsonify without an explicit code defaults to 200. -/
def Response.status : Response → Nat
  | .errorJson s _ => s
  | _ => 200

/- Character list utilities, kept structural so that the kernel can evaluate them. -/

/-- Characterwise split, mirroring the Python str.split with a one character separator. -/
def splitCharAux (sep : Char) : List Char → List Char → List (List Char)
  | [], acc => [acc.reverse]
  | c :: cs, acc =>
    if c = sep then acc.reverse :: splitCharAux sep cs []
    else splitCharAux sep cs (c :: acc)

/-- Split a string on a one character separator; the result is never empty. -/
def splitChar (sep : Char) (s : String) : List String :=
  (splitCharAux sep s.data []).map (fun l => ⟨l⟩)

/-- The Python str.strip with no argument: leading and trailing whitespace removed. -/
def pyStrip (s : String) : String :=
  ⟨((s.data.dropWhile Char.isWhitespace).reverse.dropWhile Char.isWhitespace).reverse⟩

/-- The Python str.lower restricted to the alphabet that matters here. -/
def lowerStr (s : String) : String := ⟨s.data.map Char.toLower⟩

/-- Whether p is a prefix of s, on the underlying character lists. -/
def strStartsWith (s p : String) : Bool := p.data.isPrefixOf s.data

/-- One pass of the Python str.replace: leftmost, non overlapping occurrences of pat replaced
by repl. The fuel argument bounds the recursion; the wrapper supplies the text length, which
is always sufficient because each step consumes at least one character. -/
def replaceFuel (pat repl : List Char) : Nat → List Char → List Char
  | _, [] => []
  | 0, s => s
  | fuel + 1, c :: cs =>
    if !pat.isEmpty && pat.isPrefixOf (c :: cs) then
      repl ++ replaceFuel pat repl fuel (cs.drop (pat.length - 1))
    else
      c :: replaceFuel pat repl fuel cs

/-- The Python str.replace on strings. -/
def pyReplace (s pat repl : String) : String :=
  ⟨replaceFuel pat.data repl.data s.data.length s.data⟩

/-- Whether needle occurs as a contiguous substring of the character list. -/
def containsSeg (needle : List Char) : List Char → Bool
  | [] => needle.isEmpty
  | c :: cs => needle.isPrefixOf (c :: cs) || containsSeg needle cs

/-- Whether needle occurs as a contiguous substring of hay. -/
def strContains (hay needle : String) : Bool := containsSeg needle.data hay.data

/- Modelled utility functions of the repository that are absent from the sources here. -/

/-- Modelled from the spec: at/utils/file.py allowed_file is absent from src. Section 4.1
Format Classifier: classification is a pure function of the filename extension against a
fixed allow-list, case-insensitive; the render and validate endpoints accept xml, md
(kramdown), mkd (mmark) and txt, the svgcheck endpoint accepts only svg; an unknown or
missing extension is rejected. The extension is the part after the last dot. -/
def extensionOf (filename : String) : Option String :=
  match splitChar '.' filename with
  | [] => none
  | [_] => none
  | parts => some (lowerStr (parts.getLastD ""))

/-- Modelled from the spec: at/utils/file.py allowed_file, see extensionOf. -/
def allowed_file (filename : String) (process : String) : Bool :=
  match extensionOf filename with
  | none => false
  | some ext =>
    if process = "svgcheck" then ext == "svg"
    else (ext == "xml") || (ext == "md") || (ext == "mkd") || (ext == "txt")

/-- Modelled from the spec: at/utils/file.py get_file is absent from src. Section 4.2
Staging Store locate: resolve a produced artifact to the name used when serving it from its
directory, here the final path segment. -/
def get_file (path : String) : String := (splitChar '/' path).getLastD ""

/-- The expression filename.split on slash, last element, written in api.py itself at the
start of the second draft inference. -/
def lastSegment (path : String) : String := (splitChar '/' path).getLastD ""

/-- Whether the string is a non empty run of decimal digits. -/
def allDigits (s : String) : Bool := !s.data.isEmpty && s.data.all Char.isDigit

/-- Join pieces with a dash, inverse of splitting on a dash. -/
def joinDashes : List String → String
  | [] => ""
  | [x] => x
  | x :: xs => x ++ "-" ++ joinDashes xs

/-- Modelled from the spec: at/utils/file.py get_name is absent from src. The stem of the
filename before the first dot. -/
def draftStem (filename : String) : String :=
  (splitChar '.' filename).headD filename

/-- Modelled from the spec: at/utils/file.py get_name is absent from src. Section 4.3 edge
case: the draft name is inferred from the filename by stripping the revision suffix, the
trailing dash separated run of digits. -/
def stripRevisionSuffix (stem : String) : String :=
  let parts := splitChar '-' stem
  match parts.getLast? with
  | some lastPart => if allDigits lastPart then joinDashes parts.dropLast else stem
  | none => stem

/-- Modelled from the spec: at/utils/file.py get_name is absent from src. Best effort parse
of a draft name out of a filename (spec 4.3: inferred from the first draft filename, strip
revision suffix; spec 9: best-effort string manipulation whose only fallback is erroring).
Per the glossary an Internet-Draft is identified by a draft name; rfc documents are also
accepted by the diff endpoint, whose error message mentions draft/rfc. The parse fails with
none when the stem is neither. -/
def get_name (filename : String) : Option String :=
  let stem := lowerStr (draftStem filename)
  if strStartsWith stem "draft-" || strStartsWith stem "rfc" then
    some (stripRevisionSuffix stem)
  else none

/-- Modelled from the spec: at/utils/file.py get_name_with_revision is absent from src. The
draft name including its revision, the lowercased stem of the filename. -/
def get_name_with_revision (filename : String) : String :=
  lowerStr (draftStem filename)

/-- Modelled from the spec: at/utils/net.py is_valid_url is absent from src. The host of a
URL: the segment between the first double slash and the following slash. -/
def hostChars : List Char → List Char
  | [] => []
  | '/' :: '/' :: rest => rest.takeWhile (fun c => c != '/')
  | _ :: rest => hostChars rest

/-- Modelled from the spec: at/utils/net.py is_valid_url is absent from src, see hostChars. -/
def hostOf (url : String) : String := ⟨hostChars url.data⟩

/-- Modelled from the spec: the message carried by the InvalidURL error. -/
def invalidURLMessage (url : String) : String := "Invalid URL: " ++ url

/-- Modelled from the spec: at/utils/net.py is_valid_url is absent from src. Section 4.3
step 1: an explicit URL must be syntactically well formed and its host must be in
allowed_domains; if not, resolution fails with InvalidURL. The result is an Except because
the Python function raises on failure and only ever returns on the valid case. -/
def is_valid_url (url : String) (allowedDomains : List String) : Except String Unit :=
  if hostOf url ≠ "" ∧ hostOf url ∈ allowedDomains then .ok ()
  else .error (invalidURLMessage url)

/-- Modelled from the spec: at/utils/processor.py process_file is absent from src. Sections
4.2 and 4.4: the upload is first written to the staging store, then the single conversion
tool for the classified source format runs (kramdown-rfc for md, mmark for mkd, id2xml for
txt, and none for xml which is already the canonical format). These are the external calls
process_file performs before get_xml runs. -/
def processFileCalls (filename : String) : List Call :=
  Call.saveFile filename ::
    (match (extensionOf filename).getD "" with
     | "md" => [Call.kramdown filename]
     | "mkd" => [Call.mmark filename]
     | "txt" => [Call.id2xml filename]
     | _ => [])

/- The environment of oracles: external tools, staging writes and the network. Each field
describes the outcome the outside world would produce for a given input; the handlers record
the corresponding Call in their trace whenever they consult one. -/

/-- Oracles for the external collaborators of api.py. -/
structure Env where
  process_file : String → Except ProcError (String × String)
  get_xml : String → Except String String
  render_html : String → Except String String
  render_text : String → Except String String
  render_pdf : String → Except String String
  validate_xml : String → Except String String
  get_text_id_from_file : String → Except UtilError (String × String)
  get_text_id_from_url : String → Except UtilError (String × String)
  get_latest : String → String → Option String → Except UtilError String
  get_id_diff : String → String → Bool → Bool → Except String String
  get_idnits : String → String → Bool → String → Bool → String
  extract_abnf : String → String
  parse_abnf : String → List String × String
  save_file : String → String × String
  save_file_from_text : String → String × String
  get_svgcheck : String → Except String (String × String)

/- Request parameter helpers shared by the handlers. -/

/-- Boolean query flags in api.py follow Python truthiness of request.values.get with a False
default: present with a non empty string value means true (api.py lines 155, 160, 222, 227);
the string value itself is never interpreted. -/
def truthyParam (req : Request) (k : String) : Bool :=
  match req.values k with
  | some s => if s = "" then false else true
  | none => false

/-- The table flag of the iddiff handler. -/
def tableFlag (req : Request) : Bool := truthyParam req "table"

/-- The wdiff flag of the iddiff handler. -/
def wdiffFlag (req : Request) : Bool := truthyParam req "wdiff"

/-- The show_text value of the idnits handler: text is shown unless hidetext is truthy. -/
def showTextFlag (req : Request) : Bool := !(truthyParam req "hidetext")

/-- The submit_check value of the idnits handler. -/
def submitCheckFlag (req : Request) : Bool := truthyParam req "submitcheck"

/-- request.values.get with an empty default, stripped. -/
def trimVal (req : Request) (k : String) : String := pyStrip ((req.values k).getD "")

/-- The verbose value of the idnits handler, defaulted to the string 0 and stripped. -/
def verboseVal (req : Request) : String := pyStrip ((req.values "verbose").getD "0")

/-- Replace one request value, leaving every other value and the files untouched. -/
def setValue (req : Request) (k v : String) : Request :=
  ⟨fun q => if q = k then some v else req.values q, req.files⟩

/- The handlers of api.py. -/

/-- POST /render/[format] (api.py lines 31-98). -/
def render (cfg : Config) (env : Env) (req : Request) (format : String) :
    Response × List Call :=
  match req.files "file" with
  | none => (.errorJson 400 "No file", [])
  | some file =>
    if file.filename = "" then (.errorJson 400 "Filename is missing", [])
    else if allowed_file file.filename "render" then
      match env.process_file file.filename with
      | .error (.kramdownErr e) =>
        (.errorJson 400 ("kramdown-rfc error: " ++ e), processFileCalls file.filename)
      | .error (.mmarkErr e) =>
        (.errorJson 400 ("mmark error: " ++ e), processFileCalls file.filename)
      | .error (.textErr e) =>
        (.errorJson 400 ("id2xml error: " ++ e), processFileCalls file.filename)
      | .ok (dir_path, filename) =>
        match env.get_xml filename with
        | .error e =>
          (.errorJson 400 ("xml2rfc error: " ++ e),
           processFileCalls file.filename ++ [.xml2rfc filename])
        | .ok xml_file =>
          let calls1 := processFileCalls file.filename ++ [.xml2rfc filename]
          if format = "xml" then
            (.fileAttachment dir_path (get_file (get_file xml_file)), calls1)
          else if format = "html" then
            match env.render_html xml_file with
            | .error e =>
              (.errorJson 400 ("xml2rfc error: " ++ e), calls1 ++ [.renderStep "html" xml_file])
            | .ok f =>
              (.fileAttachment dir_path (get_file (get_file f)),
               calls1 ++ [.renderStep "html" xml_file])
          else if format = "text" then
            match env.render_text xml_file with
            | .error e =>
              (.errorJson 400 ("xml2rfc error: " ++ e), calls1 ++ [.renderStep "text" xml_file])
            | .ok f =>
              (.fileAttachment dir_path (get_file (get_file f)),
               calls1 ++ [.renderStep "text" xml_file])
          else if format = "pdf" then
            match env.render_pdf xml_file with
            | .error e =>
              (.errorJson 400 ("xml2rfc error: " ++ e), calls1 ++ [.renderStep "pdf" xml_file])
            | .ok f =>
              (.fileAttachment dir_path (get_file (get_file f)),
               calls1 ++ [.renderStep "pdf" xml_file])
          else
            (.errorJson 400 "Render format not supported", calls1)
    else (.errorJson 400 "Input file format not supported", [])

/-- POST /validate (api.py lines 101-142). -/
def validate (cfg : Config) (env : Env) (req : Request) : Response × List Call :=
  match req.files "file" with
  | none => (.errorJson 400 "No file", [])
  | some file =>
    if file.filename = "" then (.errorJson 400 "Filename is missing", [])
    else if allowed_file file.filename "render" then
      match env.process_file file.filename with
      | .error (.kramdownErr e) =>
        (.errorJson 400 ("kramdown-rfc error: " ++ e), processFileCalls file.filename)
      | .error (.mmarkErr e) =>
        (.errorJson 400 ("mmark error: " ++ e), processFileCalls file.filename)
      | .error (.textErr e) =>
        (.errorJson 400 ("id2xml error: " ++ e), processFileCalls file.filename)
      | .ok (_, filename) =>
        match env.validate_xml filename with
        | .error e =>
          (.errorJson 400 ("xml2rfc error: " ++ e),
           processFileCalls file.filename ++ [.validateCall filename])
        | .ok log =>
          (.jsonValidation log, processFileCalls file.filename ++ [.validateCall filename])
    else (.errorJson 400 "Input file format not supported", [])

/-- GET /idnits (api.py lines 145-194). -/
def idnits (cfg : Config) (env : Env) (req : Request) :
    Except Fault (Response × List Call) :=
  let url := trimVal req "url"
  if url = "" then .ok (.errorJson 400 "URL is missing", [])
  else
    match is_valid_url url cfg.allowedDomains with
    | .error m => .ok (.errorJson 400 m, [])
    | .ok _ =>
      match env.get_text_id_from_url url with
      | .error (.textProcessing m) => .ok (.errorJson 400 m, [.fetch url])
      | .error (.invalidURL m) => .ok (.errorJson 400 m, [.fetch url])
      | .error (.download m) => .ok (.errorJson 400 m, [.fetch url])
      | .error e => .error (.uncaught e)
      | .ok (_, filename) =>
        .ok (.textBody
              (env.get_idnits filename (verboseVal req) (showTextFlag req)
                (trimVal req "year") (submitCheckFlag req)),
             [.fetch url,
              .idnitsCall filename (verboseVal req) (showTextFlag req)
                (trimVal req "year") (submitCheckFlag req)])

/-- The tail of the iddiff handler (api.py lines 366-382): old and new draft selection,
the external diff, and the staging path stripping of the output. -/
def iddiffFinal (env : Env) (dir_path_1 filename_1 dir_path_2 filename_2 : String)
    (single_draft table wdiff : Bool) (tr : List Call) :
    Except Fault (Response × List Call) :=
  let old_draft := if single_draft then filename_2 else filename_1
  let new_draft := if single_draft then filename_1 else filename_2
  match env.get_id_diff old_draft new_draft table wdiff with
  | .error e =>
    .ok (.errorJson 400 ("iddiff error: " ++ e),
         tr ++ [.iddiffCall old_draft new_draft table wdiff])
  | .ok out =>
    .ok (.htmlBody (pyReplace (pyReplace out (dir_path_1 ++ "/") "") (dir_path_2 ++ "/") ""),
         tr ++ [.iddiffCall old_draft new_draft table wdiff])

/-- Resolution of the second draft in the iddiff handler (api.py lines 289-364), given the
already resolved first draft. file_1 is the Python local of the same name: it is only bound
when the first draft arrived as an upload, and the inference branch reads it for logging. -/
def iddiffSecond (cfg : Config) (env : Env) (doc_2 url_2 : String)
    (file_1 file_2 : Option FileUpload)
    (dir_path_1 filename_1 : String) (table wdiff : Bool) (tr : List Call) :
    Except Fault (Response × List Call) :=
  if doc_2 = "" ∧ url_2 = "" then
    match file_2 with
    | none =>
      match get_name (lastSegment filename_1) with
      | none =>
        match file_1 with
        | none => .error (.unboundLocal "file_1")
        | some _ => .ok (.errorJson 200 "Can not determine draft/rfc", tr)
      | some draft_name =>
        match env.get_latest draft_name cfg.dtLatestDraftUrl
            (some (get_name_with_revision (lastSegment filename_1))) with
        | .error (.latestNotFound m) => .ok (.errorJson 400 m, tr ++ [.latest draft_name])
        | .error (.download m) => .ok (.errorJson 400 m, tr ++ [.latest draft_name])
        | .error e => .error (.uncaught e)
        | .ok url =>
          match env.get_text_id_from_url url with
          | .error (.latestNotFound m) =>
            .ok (.errorJson 400 m, tr ++ [.latest draft_name, .fetch url])
          | .error (.download m) =>
            .ok (.errorJson 400 m, tr ++ [.latest draft_name, .fetch url])
          | .error e => .error (.uncaught e)
          | .ok (dir_path_2, filename_2) =>
            iddiffFinal env dir_path_1 filename_1 dir_path_2 filename_2 true table wdiff
              (tr ++ [.latest draft_name, .fetch url])
    | some f2 =>
      if f2.filename = "" then .ok (.errorJson 400 "Filename of second draft missing", tr)
      else if allowed_file f2.filename "render" then
        match env.get_text_id_from_file f2.filename with
        | .error (.textProcessing m) =>
          .ok (.errorJson 400 ("Error converting second draft to text: " ++ m),
               tr ++ [.textFromFile f2.filename])
        | .error e => .error (.uncaught e)
        | .ok (dir_path_2, filename_2) =>
          iddiffFinal env dir_path_1 filename_1 dir_path_2 filename_2 false table wdiff
            (tr ++ [.textFromFile f2.filename])
      else .ok (.errorJson 400 "Second file format not supported", tr)
  else if doc_2 ≠ "" then
    match env.get_latest doc_2 cfg.dtLatestDraftUrl none with
    | .error (.latestNotFound m) => .ok (.errorJson 400 m, tr ++ [.latest doc_2])
    | .error e => .error (.uncaught e)
    | .ok url =>
      match env.get_text_id_from_url url with
      | .error (.download m) => .ok (.errorJson 400 m, tr ++ [.latest doc_2, .fetch url])
      | .error e => .error (.uncaught e)
      | .ok (dir_path_2, filename_2) =>
        iddiffFinal env dir_path_1 filename_1 dir_path_2 filename_2 false table wdiff
          (tr ++ [.latest doc_2, .fetch url])
  else
    match is_valid_url url_2 cfg.allowedDomains with
    | .error m => .ok (.errorJson 400 m, tr)
    | .ok _ =>
      match env.get_text_id_from_url url_2 with
      | .error (.invalidURL m) => .ok (.errorJson 400 m, tr ++ [.fetch url_2])
      | .error (.download m) => .ok (.errorJson 400 m, tr ++ [.fetch url_2])
      | .error e => .error (.uncaught e)
      | .ok (dir_path_2, filename_2) =>
        iddiffFinal env dir_path_1 filename_1 dir_path_2 filename_2 false table wdiff
          (tr ++ [.fetch url_2])

/-- The body of the iddiff handler after the single parameter normalization (api.py lines
232-382): resolution of the first draft, then of the second, then the diff. -/
def iddiffCore (cfg : Config) (env : Env) (doc_1 doc_2 url_1 url_2 : String)
    (file_1 file_2 : Option FileUpload) (table wdiff : Bool) :
    Except Fault (Response × List Call) :=
  if doc_1 = "" ∧ url_1 = "" then
    match file_1 with
    | none => .ok (.errorJson 400 "No documents to compare", [])
    | some f1 =>
      if f1.filename = "" then .ok (.errorJson 400 "Filename of first draft missing", [])
      else if allowed_file f1.filename "render" then
        match env.get_text_id_from_file f1.filename with
        | .error (.textProcessing m) =>
          .ok (.errorJson 400 ("Error converting first draft to text: " ++ m),
               [.textFromFile f1.filename])
        | .error e => .error (.uncaught e)
        | .ok (dir_path_1, filename_1) =>
          iddiffSecond cfg env doc_2 url_2 (some f1) file_2 dir_path_1 filename_1
            table wdiff [.textFromFile f1.filename]
      else .ok (.errorJson 400 "First file format not supported", [])
  else if doc_1 ≠ "" then
    match env.get_latest doc_1 cfg.dtLatestDraftUrl none with
    | .error (.latestNotFound m) => .ok (.errorJson 400 m, [.latest doc_1])
    | .error (.download m) => .ok (.errorJson 400 m, [.latest doc_1])
    | .error e => .error (.uncaught e)
    | .ok url =>
      match env.get_text_id_from_url url with
      | .error (.download m) => .ok (.errorJson 400 m, [.latest doc_1, .fetch url])
      | .error e => .error (.uncaught e)
      | .ok (dir_path_1, filename_1) =>
        iddiffSecond cfg env doc_2 url_2 none file_2 dir_path_1 filename_1
          table wdiff [.latest doc_1, .fetch url]
  else
    match is_valid_url url_1 cfg.allowedDomains with
    | .error m => .ok (.errorJson 400 m, [])
    | .ok _ =>
      match env.get_text_id_from_url url_1 with
      | .error (.invalidURL m) => .ok (.errorJson 400 m, [.fetch url_1])
      | .error (.download m) => .ok (.errorJson 400 m, [.fetch url_1])
      | .error e => .error (.uncaught e)
      | .ok (dir_path_1, filename_1) =>
        iddiffSecond cfg env doc_2 url_2 none file_2 dir_path_1 filename_1
          table wdiff [.fetch url_1]

/-- The single parameter normalization of the iddiff handler (api.py lines 211-218): with no
first input at all, a lone doc_2 becomes doc_1 and a lone url_2 becomes url_1. -/
def swapParams (file_1 : Option FileUpload) (doc_1 doc_2 url_1 url_2 : String) :
    String × String × String × String :=
  if file_1.isNone ∧ doc_1 = "" ∧ url_1 = "" then
    if doc_2 ≠ "" then (doc_2, "", url_1, url_2)
    else if url_2 ≠ "" then (doc_1, doc_2, url_2, "")
    else (doc_1, doc_2, url_1, url_2)
  else (doc_1, doc_2, url_1, url_2)

/-- POST/GET /iddiff (api.py lines 197-382). -/
def id_diff (cfg : Config) (env : Env) (req : Request) :
    Except Fault (Response × List Call) :=
  let p := swapParams (req.files "file_1") (trimVal req "doc_1") (trimVal req "doc_2")
    (trimVal req "url_1") (trimVal req "url_2")
  iddiffCore cfg env p.1 p.2.1 p.2.2.1 p.2.2.2 (req.files "file_1") (req.files "file_2")
    (tableFlag req) (wdiffFlag req)

/-- The shared fetch and extract tail of the abnf extract handler (api.py lines 411-421). -/
def abnfFetchAndExtract (env : Env) (url : String) (tr : List Call) :
    Response × List Call :=
  match env.get_text_id_from_url url with
  | .error e => (.errorJson 400 e.message, tr ++ [.fetch url])
  | .ok (_, filename) =>
    (.textBody (env.extract_abnf filename), tr ++ [.fetch url, .abnfExtractCall filename])

/-- GET /abnf/extract (api.py lines 385-430). The whole body sits in one try block whose
except clauses cover all four utility error kinds, so every failure maps to a 400. -/
def abnf_extract (cfg : Config) (env : Env) (req : Request) : Response × List Call :=
  let url := trimVal req "url"
  let doc := trimVal req "doc"
  if url ≠ "" then
    match is_valid_url url cfg.allowedDomains with
    | .error m => (.errorJson 400 m, [])
    | .ok _ => abnfFetchAndExtract env url []
  else if doc ≠ "" then
    match env.get_latest doc cfg.dtLatestDraftUrl none with
    | .error e => (.errorJson 400 e.message, [.latest doc])
    | .ok url2 => abnfFetchAndExtract env url2 [.latest doc]
  else (.errorJson 400 "URL/document name must be provided", [])

/-- POST /abnf/parse (api.py lines 433-449): the input is staged as text, parsed, and the
errors list and normalized grammar are always returned as a success payload. -/
def abnf_parse (cfg : Config) (env : Env) (req : Request) : Response × List Call :=
  let fn := (env.save_file_from_text ((req.values "input").getD "")).2
  (.jsonAbnf (env.parse_abnf fn).1 (env.parse_abnf fn).2, [.saveText, .abnfParseCall fn])

/-- POST /svgcheck (api.py lines 452-483). -/
def svgcheck (cfg : Config) (env : Env) (req : Request) : Response × List Call :=
  match req.files "file" with
  | none => (.errorJson 400 "No file", [])
  | some file =>
    if file.filename = "" then (.errorJson 400 "Filename is missing", [])
    else if allowed_file file.filename "svgcheck" then
      match env.get_svgcheck (env.save_file file.filename).2 with
      | .error e =>
        (.errorJson 400 e,
         [.saveFile file.filename, .svgcheckCall (env.save_file file.filename).2])
      | .ok (svg, result) =>
        (.jsonSvg result svg,
         [.saveFile file.filename, .svgcheckCall (env.save_file file.filename).2])
    else (.errorJson 400 "Input file format not supported", [])

/- Concrete fixtures used by witnesses and counterexamples. -/

/-- A configuration with a small domain allow-list. -/
def cfg0 : Config :=
  ⟨"/stage", ["ietf.org", "www.ietf.org"], "https://dt.example/latest"⟩

/-- An environment in which every external tool and every fetch succeeds, with outputs
derived deterministically from the inputs. -/
def envOk : Env :=
  ⟨fun fn => .ok ("/stage/d0", "u-" ++ fn),
   fun fn => .ok (fn ++ ".xml"),
   fun f => .ok (f ++ ".html"),
   fun f => .ok (f ++ ".txt"),
   fun f => .ok (f ++ ".pdf"),
   fun _ => .ok "valid",
   fun fn => .ok ("/stage/" ++ fn ++ ".dir", "/stage/" ++ fn ++ ".dir/" ++ fn),
   fun _ => .ok ("/stage/u", "/stage/u/x.txt"),
   fun d _ _ => .ok ("https://x.test/" ++ d),
   fun o n _ _ => .ok ("diff " ++ o ++ " " ++ n),
   fun _ _ _ _ _ => "idnits report",
   fun _ => "abnf rules",
   fun _ => (["syntax issue"], "grammar"),
   fun fn => ("/stage/s", "/stage/s/" ++ fn),
   fun _ => ("/stage/t", "/stage/t/abnf.txt"),
   fun _ => .ok ("svg body", "svg ok")⟩

/-- Like envOk, except that the two staged draft directories and the diff tool output are
chosen so that deleting the second staging path from the output forms the first one. -/
def env7 : Env :=
  ⟨envOk.process_file, envOk.get_xml, envOk.render_html, envOk.render_text, envOk.render_pdf,
   envOk.validate_xml,
   fun fn => if fn = "draft-a-00.txt" then .ok ("/tmp/u1", "f1") else .ok ("/tmp/u2", "f2"),
   envOk.get_text_id_from_url, envOk.get_latest,
   fun _ _ _ _ => .ok "/tmp/u/tmp/u2/1/",
   envOk.get_idnits, envOk.extract_abnf, envOk.parse_abnf, envOk.save_file,
   envOk.save_file_from_text, envOk.get_svgcheck⟩

/-- Build a request from association lists of values and file parts. -/
def reqOf (vals : List (String × String)) (fls : List (String × String)) : Request :=
  ⟨fun k => vals.lookup k, fun k => (fls.lookup k).map FileUpload.mk⟩

/-- The empty request: no values, no files. -/
def req0 : Request := reqOf [] []

/-- A kramdown draft upload for the render endpoint. -/
def reqMd : Request := reqOf [] [("file", "draft-a.md")]

/-- An iddiff request uploading a first draft whose name does not parse as a draft name. -/
def reqPlain : Request := reqOf [] [("file_1", "sample.txt")]

/-- An iddiff request naming the first draft by document name only. -/
def reqDoc1 : Request := reqOf [("doc_1", "draft-foo")] []

/-- An iddiff request uploading one draft, leaving the second to be inferred. -/
def reqOneDraft : Request := reqOf [] [("file_1", "draft-smoke-00.txt")]

/-- An iddiff request uploading two drafts. -/
def reqTwoDrafts : Request :=
  reqOf [] [("file_1", "draft-a-00.txt"), ("file_2", "draft-b-00.txt")]

/-- An iddiff request with only doc_2 supplied. -/
def reqDoc2Only : Request := reqOf [("doc_2", "draft-x")] []

/-- An iddiff request with only url_2 supplied. -/
def reqUrl2Only : Request := reqOf [("url_2", "https://www.ietf.org/a")] []

/-- A request whose url parameter points at a host outside the allow-list. -/
def reqBadUrl : Request := reqOf [("url", "https://evil.example/x")] []

/-- An iddiff request whose url_1 points at a host outside the allow-list. -/
def reqBadUrl1 : Request := reqOf [("url_1", "https://evil.example/x")] []

/-- An iddiff request with an uploaded first draft and a url_2 outside the allow-list. -/
def reqBadUrl2 : Request :=
  reqOf [("url_2", "https://evil.example/x")] [("file_1", "draft-a-00.txt")]

/-- An idnits request exercising the flag parsing: hidetext=false and submitcheck=0. -/
def reqNits : Request :=
  reqOf [("url", "https://www.ietf.org/id/d.txt"), ("hidetext", "false"), ("submitcheck", "0")] []

/- Shared helper lemmas. -/

/-- A URL whose host is outside the allow-list is rejected by is_valid_url. -/
theorem is_valid_url_not_allowed (u : String) (ds : List String)
    (h : hostOf u ∉ ds) : is_valid_url u ds = .error (invalidURLMessage u) := by
  unfold is_valid_url
  rw [if_neg]
  rintro ⟨_, h2⟩
  exact h h2

/-- No XML to target render step ever appears among the calls process_file makes. -/
theorem renderStep_not_mem_processFileCalls (fn m g : String) :
    Call.renderStep m g ∉ processFileCalls fn := by
  unfold processFileCalls
  intro h
  rcases List.mem_cons.mp h with h1 | h1
  · exact Call.noConfusion h1
  · revert h1
    split <;> simp

/- Claim theorems. -/

/-- C2: with the second draft inferred from an uploaded first draft whose name cannot be
parsed, api.py line 298 returns jsonify with an error body but omits the 400 status, so the
JSON error body is sent with HTTP 200, contradicting the claimed status. This evaluates the
handler at the failing input. -/
theorem c2_error_status_is_200 :
    id_diff cfg0 envOk reqPlain =
      .ok (.errorJson 200 "Can not determine draft/rfc", [.textFromFile "sample.txt"]) ∧
    (Response.errorJson 200 "Can not determine draft/rfc").status = 200 := by
  constructor
  · decide
  · rfl

/-- C3: when the first draft is resolved via doc_1 and the second must be inferred but the
draft name cannot be parsed, the logging call at api.py line 297 reads the local file_1,
which was never assigned on this path, so an UnboundLocalError escapes the handler instead
of a structured ApiError. This evaluates the handler at the failing input. -/
theorem c3_unbound_local_fault :
    id_diff cfg0 envOk reqDoc1 = .error (.unboundLocal "file_1") := by
  decide

/-- C9: a POST to render, validate or svgcheck whose multipart body has no file part is
answered with 400 and the error No file, with an empty call trace: no external tool runs and
no staging write happens. -/
theorem c9_no_file (cfg : Config) (env : Env) (req : Request) (format : String)
    (h : req.files "file" = none) :
    render cfg env req format = (.errorJson 400 "No file", []) ∧
    validate cfg env req = (.errorJson 400 "No file", []) ∧
    svgcheck cfg env req = (.errorJson 400 "No file", []) := by
  refine ⟨?_, ?_, ?_⟩ <;> simp [render, validate, svgcheck, h]

/-- Witness for C9 at the empty request. -/
theorem c9_no_file_witness :
    render cfg0 envOk req0 "xml" = (.errorJson 400 "No file", []) ∧
    validate cfg0 envOk req0 = (.errorJson 400 "No file", []) ∧
    svgcheck cfg0 envOk req0 = (.errorJson 400 "No file", []) :=
  c9_no_file cfg0 envOk req0 "xml" rfl

/-- C8: the abnf parse handler always returns the parse errors as structured data in a
success payload with HTTP 200; it has no error path at all, so syntax errors are never
surfaced as an HTTP 400 response. -/
theorem c8_parse_errors_are_payload (cfg : Config) (env : Env) (req : Request) :
    (abnf_parse cfg env req).1 =
      .jsonAbnf
        (env.parse_abnf (env.save_file_from_text ((req.values "input").getD "")).2).1
        (env.parse_abnf (env.save_file_from_text ((req.values "input").getD "")).2).2 ∧
    (abnf_parse cfg env req).1.status = 200 := by
  exact ⟨rfl, rfl⟩

/-- C1 counterexample: a render request for the unsupported format flac with an allowed
kramdown upload is answered 400 Render format not supported, but the conversion chain has
already spawned external processes before that response: the staged file is converted by
kramdown-rfc and then by xml2rfc. This refutes the claim that no external conversion process
is spawned before the response. -/
theorem c1_counterexample :
    render cfg0 envOk reqMd "flac" =
      (.errorJson 400 "Render format not supported",
       [.saveFile "draft-a.md", .kramdown "draft-a.md", .xml2rfc "u-draft-a.md"]) ∧
    Call.kramdown "draft-a.md" ∈ (render cfg0 envOk reqMd "flac").2 := by
  constructor
  · decide
  · decide

/-- C1 amended: a render request for a format outside xml, html, text, pdf with an allowed
upload is answered 400 Render format not supported once the conversion to canonical XML has
succeeded, and no XML to target render step is ever spawned for it; however the staging
write, the source format conversion tool and the xml2rfc XML step do run before the format
is checked, because api.py checks the format only after process_file and get_xml. -/
theorem c1_unsupported_format_after_conversion (cfg : Config) (env : Env) (req : Request)
    (file : FileUpload) (d fn xf format : String)
    (hf : req.files "file" = some file) (hn : file.filename ≠ "")
    (ha : allowed_file file.filename "render" = true)
    (hp : env.process_file file.filename = .ok (d, fn))
    (hx : env.get_xml fn = .ok xf)
    (hfmt : format ∉ (["xml", "html", "text", "pdf"] : List String)) :
    render cfg env req format =
      (.errorJson 400 "Render format not supported",
       processFileCalls file.filename ++ [.xml2rfc fn]) ∧
    ∀ m g, Call.renderStep m g ∉ (render cfg env req format).2 := by
  simp only [List.mem_cons, List.mem_singleton, not_or] at hfmt
  obtain ⟨h1, h2, h3, h4⟩ := hfmt
  have heq : render cfg env req format =
      (.errorJson 400 "Render format not supported",
       processFileCalls file.filename ++ [.xml2rfc fn]) := by
    simp [render, hf, hn, ha, hp, hx, h1, h2, h3, h4]
  refine ⟨heq, ?_⟩
  intro m g hmem
  rw [heq] at hmem
  rcases List.mem_append.mp hmem with hin | hin
  · exact renderStep_not_mem_processFileCalls file.filename m g hin
  · rcases List.mem_singleton.mp hin with h
    exact Call.noConfusion h

/-- Witness for C1 amended: the flac format request over a kramdown upload. -/
theorem c1_unsupported_format_witness :
    render cfg0 envOk reqMd "flac" =
      (.errorJson 400 "Render format not supported",
       processFileCalls "draft-a.md" ++ [.xml2rfc "u-draft-a.md"]) ∧
    ∀ m g, Call.renderStep m g ∉ (render cfg0 envOk reqMd "flac").2 :=
  c1_unsupported_format_after_conversion cfg0 envOk reqMd ⟨"draft-a.md"⟩
    "/stage/d0" "u-draft-a.md" "u-draft-a.md.xml" "flac"
    (by decide) (by decide) (by decide) (by decide) (by decide) (by decide)

/-- C6: whenever a draft is resolved from an explicit URL whose host is outside the
configured allow-list, the handler answers 400 with the InvalidURL error and the trace
contains no fetch at all: the document is never downloaded. The four conjuncts cover the
idnits url parameter, the iddiff url_1 and url_2 parameters, and the abnf extract url
parameter. -/
theorem c6_url_allowlist :
    (∀ (cfg : Config) (env : Env) (req : Request) (u : String),
      trimVal req "url" = u → u ≠ "" → hostOf u ∉ cfg.allowedDomains →
      ∃ tr, idnits cfg env req = .ok (.errorJson 400 (invalidURLMessage u), tr) ∧
        ∀ w, Call.fetch w ∉ tr) ∧
    (∀ (cfg : Config) (env : Env) (req : Request) (u : String),
      trimVal req "doc_1" = "" → trimVal req "url_1" = u → u ≠ "" →
      hostOf u ∉ cfg.allowedDomains →
      ∃ tr, id_diff cfg env req = .ok (.errorJson 400 (invalidURLMessage u), tr) ∧
        ∀ w, Call.fetch w ∉ tr) ∧
    (∀ (cfg : Config) (env : Env) (req : Request) (u : String) (F : FileUpload)
      (d1 f1 : String),
      trimVal req "doc_1" = "" → trimVal req "url_1" = "" →
      req.files "file_1" = some F → F.filename ≠ "" →
      allowed_file F.filename "render" = true →
      env.get_text_id_from_file F.filename = .ok (d1, f1) →
      trimVal req "doc_2" = "" → trimVal req "url_2" = u → u ≠ "" →
      hostOf u ∉ cfg.allowedDomains →
      ∃ tr, id_diff cfg env req = .ok (.errorJson 400 (invalidURLMessage u), tr) ∧
        ∀ w, Call.fetch w ∉ tr) ∧
    (∀ (cfg : Config) (env : Env) (req : Request) (u : String),
      trimVal req "url" = u → u ≠ "" → hostOf u ∉ cfg.allowedDomains →
      (abnf_extract cfg env req).1 = .errorJson 400 (invalidURLMessage u) ∧
        ∀ w, Call.fetch w ∉ (abnf_extract cfg env req).2) := by
  refine ⟨?_, ?_, ?_, ?_⟩
  · intro cfg env req u hu hne hdom
    refine ⟨[], ?_, by simp⟩
    simp only [idnits, hu]
    rw [if_neg hne, is_valid_url_not_allowed u _ hdom]
  · intro cfg env req u hd1 hu1 hne hdom
    refine ⟨[], ?_, by simp⟩
    simp only [id_diff, hd1, hu1]
    rw [swapParams, if_neg (by rintro ⟨_, _, h⟩; exact hne h)]
    simp only [iddiffCore]
    rw [if_neg (by rintro ⟨_, h⟩; exact hne h), if_neg (by simp),
      is_valid_url_not_allowed u _ hdom]
  · intro cfg env req u F d1 f1 hd1 hu1 hf hn ha hg hd2 hu2 hne hdom
    refine ⟨[.textFromFile F.filename], ?_, by simp⟩
    simp only [id_diff, hd1, hu1, hd2, hu2, hf]
    rw [swapParams]
    rw [if_neg (by rintro ⟨h, _⟩; simp at h)]
    simp [iddiffCore, iddiffSecond, hn, ha, hg, hne, is_valid_url_not_allowed u _ hdom]
  · intro cfg env req u hu hne hdom
    constructor
    · simp only [abnf_extract, hu]
      rw [if_pos hne, is_valid_url_not_allowed u _ hdom]
    · simp only [abnf_extract, hu]
      rw [if_pos hne, is_valid_url_not_allowed u _ hdom]
      simp

/-- Witness for C6 at concrete requests against the host evil.example. -/
theorem c6_url_allowlist_witness :
    (∃ tr, idnits cfg0 envOk reqBadUrl =
        .ok (.errorJson 400 (invalidURLMessage "https://evil.example/x"), tr) ∧
      ∀ w, Call.fetch w ∉ tr) ∧
    (∃ tr, id_diff cfg0 envOk reqBadUrl1 =
        .ok (.errorJson 400 (invalidURLMessage "https://evil.example/x"), tr) ∧
      ∀ w, Call.fetch w ∉ tr) ∧
    (∃ tr, id_diff cfg0 envOk reqBadUrl2 =
        .ok (.errorJson 400 (invalidURLMessage "https://evil.example/x"), tr) ∧
      ∀ w, Call.fetch w ∉ tr) ∧
    ((abnf_extract cfg0 envOk reqBadUrl).1 =
        .errorJson 400 (invalidURLMessage "https://evil.example/x") ∧
      ∀ w, Call.fetch w ∉ (abnf_extract cfg0 envOk reqBadUrl).2) :=
  ⟨c6_url_allowlist.1 cfg0 envOk reqBadUrl _ (by decide) (by decide) (by decide),
   c6_url_allowlist.2.1 cfg0 envOk reqBadUrl1 _ (by decide) (by decide) (by decide) (by decide),
   c6_url_allowlist.2.2.1 cfg0 envOk reqBadUrl2 _ ⟨"draft-a-00.txt"⟩
     "/stage/draft-a-00.txt.dir" "/stage/draft-a-00.txt.dir/draft-a-00.txt"
     (by decide) (by decide) (by decide) (by decide) (by decide) (by decide)
     (by decide) (by decide) (by decide) (by decide),
   c6_url_allowlist.2.2.2 cfg0 envOk reqBadUrl _ (by decide) (by decide) (by decide)⟩

/-- C10: in the idnits handler the hidetext and submitcheck flags are enabled exactly when
the parameter is present with a non empty value, the value string itself being irrelevant;
an empty value or an absent parameter leaves the flag disabled. The flags recorded on the
idnits invocation are showTextFlag (false exactly when hidetext is enabled) and
submitCheckFlag. -/
theorem c10_flag_presence (cfg : Config) (env : Env) (req : Request) (u d fn : String)
    (hu : trimVal req "url" = u) (hne : u ≠ "")
    (hv : is_valid_url u cfg.allowedDomains = .ok ())
    (hg : env.get_text_id_from_url u = .ok (d, fn)) :
    idnits cfg env req =
      .ok (.textBody
            (env.get_idnits fn (verboseVal req) (showTextFlag req)
              (trimVal req "year") (submitCheckFlag req)),
           [.fetch u,
            .idnitsCall fn (verboseVal req) (showTextFlag req)
              (trimVal req "year") (submitCheckFlag req)]) ∧
    (showTextFlag req = false ↔ ∃ s, req.values "hidetext" = some s ∧ s ≠ "") ∧
    (submitCheckFlag req = true ↔ ∃ s, req.values "submitcheck" = some s ∧ s ≠ "") := by
  refine ⟨?_, ?_, ?_⟩
  · simp only [idnits, hu]
    rw [if_neg hne, hv, hg]
  · unfold showTextFlag truthyParam
    cases h : req.values "hidetext" with
    | none => simp [h]
    | some s =>
      rcases eq_or_ne s "" with hs | hs
      · subst hs; simp
      · simp [hs]
  · unfold submitCheckFlag truthyParam
    cases h : req.values "submitcheck" with
    | none => simp [h]
    | some s =>
      rcases eq_or_ne s "" with hs | hs
      · subst hs; simp
      · simp [hs]

/-- Witness for C10: hidetext=false and submitcheck=0 both enable their flags. -/
theorem c10_flag_presence_witness :
    (idnits cfg0 envOk reqNits =
      .ok (.textBody
            (envOk.get_idnits "/stage/u/x.txt" (verboseVal reqNits) (showTextFlag reqNits)
              (trimVal reqNits "year") (submitCheckFlag reqNits)),
           [.fetch "https://www.ietf.org/id/d.txt",
            .idnitsCall "/stage/u/x.txt" (verboseVal reqNits) (showTextFlag reqNits)
              (trimVal reqNits "year") (submitCheckFlag reqNits)]) ∧
    (showTextFlag reqNits = false ↔ ∃ s, reqNits.values "hidetext" = some s ∧ s ≠ "") ∧
    (submitCheckFlag reqNits = true ↔ ∃ s, reqNits.values "submitcheck" = some s ∧ s ≠ "")) ∧
    showTextFlag reqNits = false ∧ submitCheckFlag reqNits = true :=
  ⟨c10_flag_presence cfg0 envOk reqNits "https://www.ietf.org/id/d.txt" "/stage/u"
      "/stage/u/x.txt" (by decide) (by decide) (by decide) (by decide),
   by decide, by decide⟩

/-- If the pattern does not occur in the text, a replace pass leaves the text unchanged. -/
theorem replaceFuel_no_occurrence (pat repl : List Char) :
    ∀ fuel s, containsSeg pat s = false → replaceFuel pat repl fuel s = s := by
  intro fuel
  induction fuel with
  | zero => intro s h; cases s <;> rfl
  | succ n ih =>
    intro s h
    cases s with
    | nil => rfl
    | cons c cs =>
      simp only [containsSeg, Bool.or_eq_false_iff] at h
      simp only [replaceFuel, h.1, Bool.and_false, if_false]
      exact congrArg (c :: ·) (ih cs h.2)

/-- If the pattern does not occur in the string, pyReplace is the identity. -/
theorem pyReplace_no_occurrence (s pat repl : String)
    (h : strContains s pat = false) : pyReplace s pat repl = s :=
  congrArg String.mk (replaceFuel_no_occurrence pat.data repl.data s.data.length s.data h)

/-- Stripping the empty string yields the empty string. -/
theorem pyStrip_empty : pyStrip "" = "" := rfl

/-- C5: with no first input at all (no file_1, empty doc_1 and url_1), a request carrying a
non empty doc_2 is handled identically to the request carrying the same value as doc_1 and
an empty doc_2; likewise for url_2 and url_1. -/
theorem c5_single_param_symmetry :
    (∀ (cfg : Config) (env : Env) (req : Request) (v : String),
      req.files "file_1" = none → trimVal req "doc_1" = "" → trimVal req "url_1" = "" →
      req.values "doc_2" = some v → pyStrip v ≠ "" →
      id_diff cfg env req = id_diff cfg env (setValue (setValue req "doc_1" v) "doc_2" "")) ∧
    (∀ (cfg : Config) (env : Env) (req : Request) (v : String),
      req.files "file_1" = none → trimVal req "doc_1" = "" → trimVal req "url_1" = "" →
      trimVal req "doc_2" = "" → req.values "url_2" = some v → pyStrip v ≠ "" →
      id_diff cfg env req = id_diff cfg env (setValue (setValue req "url_1" v) "url_2" "")) := by
  constructor
  · intro cfg env req v hf hd1 hu1 hd2v hv
    simp only [trimVal] at hd1 hu1
    simp only [id_diff, setValue, trimVal, tableFlag, wdiffFlag, truthyParam, swapParams]
    simp [hf, hd1, hu1, hd2v, hv, pyStrip_empty]
  · intro cfg env req v hf hd1 hu1 hd2 hu2v hv
    simp only [trimVal] at hd1 hu1 hd2
    simp only [id_diff, setValue, trimVal, tableFlag, wdiffFlag, truthyParam, swapParams]
    simp [hf, hd1, hu1, hd2, hu2v, hv, pyStrip_empty]

/-- Witness for C5: a doc_2 only request and a url_2 only request each handled identically
to the corresponding first parameter request. -/
theorem c5_single_param_symmetry_witness :
    id_diff cfg0 envOk reqDoc2Only =
      id_diff cfg0 envOk (setValue (setValue reqDoc2Only "doc_1" "draft-x") "doc_2" "") ∧
    id_diff cfg0 envOk reqUrl2Only =
      id_diff cfg0 envOk
        (setValue (setValue reqUrl2Only "url_1" "https://www.ietf.org/a") "url_2" "") :=
  ⟨c5_single_param_symmetry.1 cfg0 envOk reqDoc2Only "draft-x"
     (by decide) (by decide) (by decide) (by decide) (by decide),
   c5_single_param_symmetry.2 cfg0 envOk reqUrl2Only "https://www.ietf.org/a"
     (by decide) (by decide) (by decide) (by decide) (by decide) (by decide)⟩

/-- C4: in single draft mode (second draft inferred as the previous revision of the first),
the inferred draft is passed to the diff tool as the old draft and the supplied draft as the
new draft, while in two draft mode the first supplied draft is old and the second is new:
the iddiffCall records the arguments in exactly this order in each mode. -/
theorem c4_single_draft_reverses_order :
    (∀ (cfg : Config) (env : Env) (req : Request) (F : FileUpload)
      (d1 f1 dn u2 d2 f2 s : String),
      trimVal req "doc_1" = "" → trimVal req "url_1" = "" →
      trimVal req "doc_2" = "" → trimVal req "url_2" = "" →
      req.files "file_1" = some F → req.files "file_2" = none →
      F.filename ≠ "" → allowed_file F.filename "render" = true →
      env.get_text_id_from_file F.filename = .ok (d1, f1) →
      get_name (lastSegment f1) = some dn →
      env.get_latest dn cfg.dtLatestDraftUrl
        (some (get_name_with_revision (lastSegment f1))) = .ok u2 →
      env.get_text_id_from_url u2 = .ok (d2, f2) →
      env.get_id_diff f2 f1 (tableFlag req) (wdiffFlag req) = .ok s →
      id_diff cfg env req =
        .ok (.htmlBody (pyReplace (pyReplace s (d1 ++ "/") "") (d2 ++ "/") ""),
          [.textFromFile F.filename, .latest dn, .fetch u2,
           .iddiffCall f2 f1 (tableFlag req) (wdiffFlag req)])) ∧
    (∀ (cfg : Config) (env : Env) (req : Request) (F1 F2 : FileUpload)
      (d1 f1 d2 f2 s : String),
      trimVal req "doc_1" = "" → trimVal req "url_1" = "" →
      trimVal req "doc_2" = "" → trimVal req "url_2" = "" →
      req.files "file_1" = some F1 → req.files "file_2" = some F2 →
      F1.filename ≠ "" → allowed_file F1.filename "render" = true →
      F2.filename ≠ "" → allowed_file F2.filename "render" = true →
      env.get_text_id_from_file F1.filename = .ok (d1, f1) →
      env.get_text_id_from_file F2.filename = .ok (d2, f2) →
      env.get_id_diff f1 f2 (tableFlag req) (wdiffFlag req) = .ok s →
      id_diff cfg env req =
        .ok (.htmlBody (pyReplace (pyReplace s (d1 ++ "/") "") (d2 ++ "/") ""),
          [.textFromFile F1.filename, .textFromFile F2.filename,
           .iddiffCall f1 f2 (tableFlag req) (wdiffFlag req)])) := by
  constructor
  · intro cfg env req F d1 f1 dn u2 d2 f2 s hd1 hu1 hd2 hu2 hf1 hf2 hn ha hg
      hname hlatest hfetch hdiff
    simp only [id_diff, hd1, hu1, hd2, hu2, hf1, hf2]
    rw [swapParams]
    rw [if_neg (by rintro ⟨h, _⟩; simp at h)]
    simp [iddiffCore, iddiffSecond, iddiffFinal, hn, ha, hg, hname, hlatest, hfetch, hdiff]
  · intro cfg env req F1 F2 d1 f1 d2 f2 s hd1 hu1 hd2 hu2 hf1 hf2 hn1 ha1 hn2 ha2
      hg1 hg2 hdiff
    simp only [id_diff, hd1, hu1, hd2, hu2, hf1, hf2]
    rw [swapParams]
    rw [if_neg (by rintro ⟨h, _⟩; simp at h)]
    simp [iddiffCore, iddiffSecond, iddiffFinal, hn1, ha1, hn2, ha2, hg1, hg2, hdiff]

/-- Witness for C4: a one upload request with the second draft inferred, and a two upload
request, each recording the old and new diff arguments in the stated order. -/
theorem c4_single_draft_reverses_order_witness :
    id_diff cfg0 envOk reqOneDraft =
      .ok (.htmlBody
            (pyReplace
              (pyReplace
                ("diff " ++ "/stage/u/x.txt" ++ " " ++
                 "/stage/draft-smoke-00.txt.dir/draft-smoke-00.txt")
                ("/stage/draft-smoke-00.txt.dir" ++ "/") "")
              ("/stage/u" ++ "/") ""),
          [.textFromFile "draft-smoke-00.txt", .latest "draft-smoke",
           .fetch "https://x.test/draft-smoke",
           .iddiffCall "/stage/u/x.txt" "/stage/draft-smoke-00.txt.dir/draft-smoke-00.txt"
             (tableFlag reqOneDraft) (wdiffFlag reqOneDraft)]) ∧
    id_diff cfg0 envOk reqTwoDrafts =
      .ok (.htmlBody
            (pyReplace
              (pyReplace
                ("diff " ++ "/stage/draft-a-00.txt.dir/draft-a-00.txt" ++ " " ++
                 "/stage/draft-b-00.txt.dir/draft-b-00.txt")
                ("/stage/draft-a-00.txt.dir" ++ "/") "")
              ("/stage/draft-b-00.txt.dir" ++ "/") ""),
          [.textFromFile "draft-a-00.txt", .textFromFile "draft-b-00.txt",
           .iddiffCall "/stage/draft-a-00.txt.dir/draft-a-00.txt"
             "/stage/draft-b-00.txt.dir/draft-b-00.txt"
             (tableFlag reqTwoDrafts) (wdiffFlag reqTwoDrafts)]) :=
  ⟨c4_single_draft_reverses_order.1 cfg0 envOk reqOneDraft ⟨"draft-smoke-00.txt"⟩
     "/stage/draft-smoke-00.txt.dir" "/stage/draft-smoke-00.txt.dir/draft-smoke-00.txt"
     "draft-smoke" "https://x.test/draft-smoke" "/stage/u" "/stage/u/x.txt"
     ("diff " ++ "/stage/u/x.txt" ++ " " ++
      "/stage/draft-smoke-00.txt.dir/draft-smoke-00.txt")
     (by decide) (by decide) (by decide) (by decide) (by decide) (by decide) (by decide)
     (by decide) (by decide) (by decide) (by decide) (by decide) (by decide),
   c4_single_draft_reverses_order.2 cfg0 envOk reqTwoDrafts ⟨"draft-a-00.txt"⟩
     ⟨"draft-b-00.txt"⟩
     "/stage/draft-a-00.txt.dir" "/stage/draft-a-00.txt.dir/draft-a-00.txt"
     "/stage/draft-b-00.txt.dir" "/stage/draft-b-00.txt.dir/draft-b-00.txt"
     ("diff " ++ "/stage/draft-a-00.txt.dir/draft-a-00.txt" ++ " " ++
      "/stage/draft-b-00.txt.dir/draft-b-00.txt")
     (by decide) (by decide) (by decide) (by decide) (by decide) (by decide) (by decide)
     (by decide) (by decide) (by decide) (by decide) (by decide) (by decide)⟩

/-- C7 counterexample: the diff output is stripped by one replace pass per staging
directory, first dir_path_1 then dir_path_2, and deleting an occurrence of dir_path_2 can
splice the surrounding text into a fresh occurrence of dir_path_1 that survives: here the
staging directories are /tmp/u1 and /tmp/u2, the tool output contains neither /tmp/u1/ nor
any second occurrence of /tmp/u2/, yet the body returned to the client is exactly /tmp/u1/,
an occurrence of the first staging directory path. This refutes the claim that the returned
diff never contains either staging path. -/
theorem c7_counterexample :
    id_diff cfg0 env7 reqTwoDrafts =
      .ok (.htmlBody "/tmp/u1/",
        [.textFromFile "draft-a-00.txt", .textFromFile "draft-b-00.txt",
         .iddiffCall "f1" "f2" false false]) ∧
    strContains "/tmp/u1/" ("/tmp/u1" ++ "/") = true := by
  constructor
  · decide
  · decide

/-- C7 amended: for every successful two draft diff, the body returned to the client is
exactly the tool output with one leftmost replace pass removing dir_path_1 followed by a
slash, then one pass removing dir_path_2 followed by a slash; in particular when neither
staging path occurs in the tool output the body is the output unchanged. Occurrences spliced
together by the deletions themselves are outside what the passes remove. -/
theorem c7_staging_paths_stripped (cfg : Config) (env : Env) (req : Request)
    (F1 F2 : FileUpload) (d1 f1 d2 f2 out : String)
    (hd1 : trimVal req "doc_1" = "") (hu1 : trimVal req "url_1" = "")
    (hd2 : trimVal req "doc_2" = "") (hu2 : trimVal req "url_2" = "")
    (hf1 : req.files "file_1" = some F1) (hf2 : req.files "file_2" = some F2)
    (hn1 : F1.filename ≠ "") (ha1 : allowed_file F1.filename "render" = true)
    (hn2 : F2.filename ≠ "") (ha2 : allowed_file F2.filename "render" = true)
    (hg1 : env.get_text_id_from_file F1.filename = .ok (d1, f1))
    (hg2 : env.get_text_id_from_file F2.filename = .ok (d2, f2))
    (hdiff : env.get_id_diff f1 f2 (tableFlag req) (wdiffFlag req) = .ok out) :
    id_diff cfg env req =
      .ok (.htmlBody (pyReplace (pyReplace out (d1 ++ "/") "") (d2 ++ "/") ""),
        [.textFromFile F1.filename, .textFromFile F2.filename,
         .iddiffCall f1 f2 (tableFlag req) (wdiffFlag req)]) ∧
    (strContains out (d1 ++ "/") = false → strContains out (d2 ++ "/") = false →
      pyReplace (pyReplace out (d1 ++ "/") "") (d2 ++ "/") "" = out) := by
  constructor
  · simp only [id_diff, hd1, hu1, hd2, hu2, hf1, hf2]
    rw [swapParams]
    rw [if_neg (by rintro ⟨h, _⟩; simp at h)]
    simp [iddiffCore, iddiffSecond, iddiffFinal, hn1, ha1, hn2, ha2, hg1, hg2, hdiff]
  · intro h1 h2
    rw [pyReplace_no_occurrence out (d1 ++ "/") "" h1,
      pyReplace_no_occurrence out (d2 ++ "/") "" h2]

/-- Witness for C7 amended, at the adversarial diff output of env7. -/
theorem c7_staging_paths_stripped_witness :
    id_diff cfg0 env7 reqTwoDrafts =
      .ok (.htmlBody
            (pyReplace (pyReplace "/tmp/u/tmp/u2/1/" ("/tmp/u1" ++ "/") "")
              ("/tmp/u2" ++ "/") ""),
        [.textFromFile "draft-a-00.txt", .textFromFile "draft-b-00.txt",
         .iddiffCall "f1" "f2" (tableFlag reqTwoDrafts) (wdiffFlag reqTwoDrafts)]) ∧
    (strContains "/tmp/u/tmp/u2/1/" ("/tmp/u1" ++ "/") = false →
      strContains "/tmp/u/tmp/u2/1/" ("/tmp/u2" ++ "/") = false →
      pyReplace (pyReplace "/tmp/u/tmp/u2/1/" ("/tmp/u1" ++ "/") "")
        ("/tmp/u2" ++ "/") "" = "/tmp/u/tmp/u2/1/") :=
  c7_staging_paths_stripped cfg0 env7 reqTwoDrafts ⟨"draft-a-00.txt"⟩ ⟨"draft-b-00.txt"⟩
    "/tmp/u1" "f1" "/tmp/u2" "f2" "/tmp/u/tmp/u2/1/"
    (by decide) (by decide) (by decide) (by decide) (by decide) (by decide) (by decide)
    (by decide) (by decide) (by decide) (by decide) (by decide) (by decide)

end AT
